import Mathlib

/-
Verification development for the satellite-operations console repository.
The conjunction screening engine lives in src/services/conjunction.ts
(threshold 500 km, severity boundaries 50/200 km) and in a second copy in
src/services/tle.ts (threshold 100 km, severity boundaries 5/25 km).
TLE ingestion (loadTLEs) lives in src/services/tle.ts.

Modelling conventions:
- JS numbers used by the screening loop (distances, thresholds) are modelled
  as rationals; `Number.POSITIVE_INFINITY` is the top element of `WithTop ℚ`.
- Timestamps (`Date`) are epoch milliseconds (`Int`); `toISOString` is an
  injective rendering of that instant, so `Threat.when` keeps the Int.
- The user-orbit propagator and the Euclidean distance use real-valued
  trigonometry, so they are embedded over `ℝ` (`userSatEciAt`, `distKm`);
  the screening loop is embedded parametrically over the position type and
  the two geometry callbacks, exactly mirroring the loop structure of the
  source.
- `satellite.js` propagation (twoline2satrec/propagate) is external: it is a
  parameter `rawProp` that may throw (`Except.error`) or return no position
  (`Except.ok none`); `tleEciAt` translates the source's try/catch around it.
- `crypto.randomUUID()` is a parameter `uuidGen : Nat → Except String String`
  (the n-th call), which may throw; the outer try/catch of
  `screenConjunctions` maps any body exception to the empty threat list.
-/

/-- Severity enum from src/types ("LOW" | "MEDIUM" | "HIGH"). -/
inductive Severity where
  | HIGH
  | MEDIUM
  | LOW
deriving DecidableEq

/-- Satellite record from src/types.ts: name, semiMajorAxisKm,
inclinationDeg, eccentricity. Numeric fields are real-valued since they feed
the trigonometric propagator. -/
structure Satellite where
  name : String
  semiMajorAxisKm : ℝ
  inclinationDeg : ℝ
  eccentricity : ℝ

/-- TleRecord from src/services/tle.ts. -/
structure TleRecord where
  name : String
  line1 : String
  line2 : String
deriving DecidableEq

/-- Threat record from src/types.ts, as built by screenConjunctions.
`when` is the epoch-millisecond instant rendered by toISOString in the
source. -/
structure Threat where
  id : String
  type : String
  when : Int
  severity : Severity
  description : String
  suggestedAction : String
deriving DecidableEq

/-- Per-satellite closest-approach record: the engine's per-orbit output
(the spec's ConjunctionResult; surfaced by the source as the per-satellite
closest-approach report after the time loop). -/
structure ConjunctionResult where
  satelliteName : String
  minDistanceKm : WithTop ℚ
  timeOfClosestApproach : Int
deriving DecidableEq

/-- Full observable outcome of one screening invocation: the per-orbit
closest-approach records and the returned threat list. -/
structure ScreenOutput where
  results : List ConjunctionResult
  threats : List Threat
deriving DecidableEq

/-- Earth's gravitational parameter, km^3/s^2 (conjunction.ts line 6). -/
def MU_EARTH : ℝ := 398600.4418

/-- Screening horizon in hours (conjunction.ts line 7). -/
def HORIZON_HOURS : Nat := 2

/-- Sampling step in seconds (conjunction.ts line 8). -/
def STEP_SEC : Nat := 5 * 60

/-- Screening threshold of src/services/conjunction.ts (500 km demo value). -/
def THRESHOLD_KM : ℚ := 500

/-- Screening threshold of the copy in src/services/tle.ts (100 km
operational value). -/
def TLE_THRESHOLD_KM : ℚ := 100

/-- Number of sampled instants: the source loops t from now to
now + HORIZON_HOURS (inclusive, since the step divides the horizon exactly)
in STEP_SEC increments, giving 2*3600/300 + 1 = 25 samples. -/
def sampleCount : Nat := HORIZON_HOURS * 3600 / STEP_SEC + 1

/-- The sampled instants of the screening loop, in iteration order
(epoch ms): now, now + step, ..., now + horizon. Closed form of the
source's `for (let t = new Date(now); t <= end; t += STEP_SEC*1000)`. -/
def sampleTimes (now : Int) : List Int :=
  (List.range sampleCount).map (fun k => now + (k : Int) * ((STEP_SEC : Int) * 1000))

/-- Severity classification of src/services/conjunction.ts lines 110-116:
HIGH below 50 km, MEDIUM from 50 to 200 km, LOW otherwise. -/
def classifySeverity (d : WithTop ℚ) : Severity :=
  if d < ((50 : ℚ) : WithTop ℚ) then Severity.HIGH
  else if d < ((200 : ℚ) : WithTop ℚ) then Severity.MEDIUM
  else Severity.LOW

/-- Threat decision of src/services/conjunction.ts lines 107-116: a threat
is emitted only when the minimum distance is strictly below THRESHOLD_KM
(500), with severity from classifySeverity. -/
def conjScreenDecision (d : WithTop ℚ) : Option Severity :=
  if d < ((THRESHOLD_KM : ℚ) : WithTop ℚ) then some (classifySeverity d) else none

/-- Severity classification of the screener copy in src/services/tle.ts
(lines 179-185 of that file): HIGH below 5 km, MEDIUM from 5 to 25 km,
LOW otherwise. -/
def tleClassifySeverity (d : WithTop ℚ) : Severity :=
  if d < ((5 : ℚ) : WithTop ℚ) then Severity.HIGH
  else if d < ((25 : ℚ) : WithTop ℚ) then Severity.MEDIUM
  else Severity.LOW

/-- Threat decision of the screener copy in src/services/tle.ts (lines
176-185): a threat is emitted only when the minimum distance is strictly
below 100 km, with severity from tleClassifySeverity. -/
def tleScreenDecision (d : WithTop ℚ) : Option Severity :=
  if d < ((TLE_THRESHOLD_KM : ℚ) : WithTop ℚ) then some (tleClassifySeverity d) else none

/-- Left-pad a digit string with zeros to the given width. -/
def padZeros (n : Nat) (s : String) : String :=
  if s.length < n then String.mk (List.replicate (n - s.length) ('0')) ++ s else s

/-- JS Number.prototype.toFixed on a rational: round half away from zero at
the requested number of fractional digits. The rounded magnitude
floor(abs(q) * 10^digits + 1/2) is computed on the numerator and denominator
directly. -/
def qToFixed (digits : Nat) (q : ℚ) : String :=
  let scale : Nat := 10 ^ digits
  let na : Nat := q.num.natAbs
  let scaled : Nat := (2 * na * scale + q.den) / (2 * q.den)
  let sign := if q < 0 then "-" else ""
  let ip := scaled / scale
  let fp := scaled % scale
  if digits = 0 then sign ++ Nat.repr ip
  else sign ++ Nat.repr ip ++ "." ++ padZeros digits (Nat.repr fp)

/-- toFixed lifted to the extended distance: JS renders Infinity.toFixed as
"Infinity". -/
def wtopToFixed (digits : Nat) (d : WithTop ℚ) : String :=
  match d with
  | none => "Infinity"
  | some q => qToFixed digits q

/-- Threat description string of conjunction.ts lines 123-125. -/
def descriptionFor (name : String) (d : WithTop ℚ) : String :=
  "Close approach predicted for " ++ name ++ " (miss distance ≈ " ++
    wtopToFixed 1 d ++ " km) within " ++ Nat.repr HORIZON_HOURS ++ "h."

/-- Suggested action strings of conjunction.ts lines 126-131, keyed by
severity. -/
def suggestedActionFor (sev : Severity) : String :=
  match sev with
  | Severity.HIGH => "⚠️ CRITICAL: Perform 0.5 m/s radial-out burn at T–20 min. Notify ground control."
  | Severity.MEDIUM => "Plan 0.2 m/s prograde burn at next opportunity to increase separation."
  | Severity.LOW => "Monitor trajectory; prepare contingency if distance drops below 200 km."

/-- Running closest-approach accumulator of the screening loop
(conjunction.ts line 87): distance starts at POSITIVE_INFINITY, time at
now. -/
structure Best where
  d : WithTop ℚ
  when : Int
deriving DecidableEq

/-- tleEciAt (conjunction.ts lines 39-49): calls the external satellite.js
propagation (`rawProp`, which may throw or return no position) and converts
any failure into `none` via the try/catch. -/
def tleEciAt {Pos : Type} (rawProp : TleRecord → Int → Except String (Option Pos))
    (tle : TleRecord) (date : Int) : Option Pos :=
  match rawProp tle date with
  | Except.error _ => none
  | Except.ok none => none
  | Except.ok (some p) => some p

/-- Inner debris loop of conjunction.ts lines 97-102 at one sampled instant:
fold over the debris list, skipping elements whose propagation failed, and
keep the strictly smaller distance with its instant. -/
def debrisStep {Pos : Type} (dist : Pos → Pos → ℚ)
    (rawProp : TleRecord → Int → Except String (Option Pos))
    (pUser : Pos) (t : Int) (debris : List TleRecord) (b : Best) : Best :=
  debris.foldl (fun b tle =>
    match tleEciAt rawProp tle t with
    | none => b
    | some pDebris =>
      let d := dist pUser pDebris
      if ((d : WithTop ℚ) < b.d) then { d := (d : WithTop ℚ), when := t } else b) b

/-- Body of the time loop of conjunction.ts lines 89-103 at one sampled
instant: compute the elapsed seconds and the user position once, then scan
all debris. -/
def timeStep {Pos : Type} (userPos : Satellite → ℚ → Pos) (dist : Pos → Pos → ℚ)
    (rawProp : TleRecord → Int → Except String (Option Pos))
    (debris : List TleRecord) (now : Int) (u : Satellite) (b : Best) (t : Int) : Best :=
  let dtSec : ℚ := ((t - now : Int) : ℚ) / 1000
  let pUser := userPos u dtSec
  debrisStep dist rawProp pUser t debris b

/-- Time loop of conjunction.ts lines 86-103 for one user satellite: fold
the per-instant body over the sampled instants. -/
def bestFor {Pos : Type} (userPos : Satellite → ℚ → Pos) (dist : Pos → Pos → ℚ)
    (rawProp : TleRecord → Int → Except String (Option Pos))
    (debris : List TleRecord) (now : Int) (u : Satellite) : Best :=
  (sampleTimes now).foldl (timeStep userPos dist rawProp debris now u)
    { d := (⊤ : WithTop ℚ), when := now }

/-- Threat record construction of conjunction.ts lines 118-132. -/
def mkThreat (id : String) (u : Satellite) (b : Best) (sev : Severity) : Threat :=
  { id := id, type := "CONJUNCTION", when := b.when, severity := sev,
    description := descriptionFor u.name b.d,
    suggestedAction := suggestedActionFor sev }

/-- Per-satellite loop of conjunction.ts lines 86-134, threading the count
of crypto.randomUUID calls made so far; a throwing uuidGen propagates as an
exception to the surrounding try/catch. Produces the per-orbit
closest-approach records and the accumulated threats, in source order. -/
def satLoop {Pos : Type} (userPos : Satellite → ℚ → Pos) (dist : Pos → Pos → ℚ)
    (rawProp : TleRecord → Int → Except String (Option Pos))
    (uuidGen : Nat → Except String String)
    (debris : List TleRecord) (now : Int) :
    Nat → List Satellite → Except String (List ConjunctionResult × List Threat)
  | _, [] => Except.ok ([], [])
  | ctr, u :: rest =>
    let b := bestFor userPos dist rawProp debris now u
    let res : ConjunctionResult :=
      { satelliteName := u.name, minDistanceKm := b.d, timeOfClosestApproach := b.when }
    match conjScreenDecision b.d with
    | none => do
      let (rs, ts) ← satLoop userPos dist rawProp uuidGen debris now ctr rest
      Except.ok (res :: rs, ts)
    | some sev => do
      let id ← uuidGen ctr
      let (rs, ts) ← satLoop userPos dist rawProp uuidGen debris now (ctr + 1) rest
      Except.ok (res :: rs, mkThreat id u b sev :: ts)

/-- screenConjunctions of src/services/conjunction.ts lines 58-142: empty
user list returns immediately; a missing or empty debris cache skips
screening (lines 66-78, an undefined cache behaves as an empty list); the
body runs under a try/catch that maps any exception to the empty output. -/
def screenConjunctionsRun {Pos : Type} (userPos : Satellite → ℚ → Pos)
    (dist : Pos → Pos → ℚ)
    (rawProp : TleRecord → Int → Except String (Option Pos))
    (uuidGen : Nat → Except String String)
    (userSats : List Satellite) (debrisCache : List TleRecord) (now : Int) :
    ScreenOutput :=
  if userSats.isEmpty then { results := [], threats := [] }
  else if debrisCache.isEmpty then { results := [], threats := [] }
  else
    match satLoop userPos dist rawProp uuidGen debrisCache now 0 userSats with
    | Except.ok (rs, ts) => { results := rs, threats := ts }
    | Except.error _ => { results := [], threats := [] }

/-- The value actually returned by the source function (its threat array). -/
def screenConjunctions {Pos : Type} (userPos : Satellite → ℚ → Pos)
    (dist : Pos → Pos → ℚ)
    (rawProp : TleRecord → Int → Except String (Option Pos))
    (uuidGen : Nat → Except String String)
    (userSats : List Satellite) (debrisCache : List TleRecord) (now : Int) :
    List Threat :=
  (screenConjunctionsRun userPos dist rawProp uuidGen userSats debrisCache now).threats

/-- Threat with the randomly generated id removed; all remaining fields are
pure functions of the screening inputs. -/
structure ThreatData where
  type : String
  when : Int
  severity : Severity
  description : String
  suggestedAction : String
deriving DecidableEq

/-- Forget the crypto.randomUUID-generated id of a threat. -/
def Threat.eraseId (t : Threat) : ThreatData :=
  { type := t.type, when := t.when, severity := t.severity,
    description := t.description, suggestedAction := t.suggestedAction }

/-- The caller-owned input arrays of a screening invocation (the mutable JS
heap cells the engine can reach). -/
structure EngineStore where
  userSats : List Satellite
  debrisCache : List TleRecord

/-- Store-passing translation of screenConjunctions: every access the source
makes to the input arrays or their element records is a read (there is no
assignment to them anywhere in lines 58-142), so the translated body reads
the store and returns it unchanged alongside the output. -/
def screenConjunctionsSt {Pos : Type} (userPos : Satellite → ℚ → Pos)
    (dist : Pos → Pos → ℚ)
    (rawProp : TleRecord → Int → Except String (Option Pos))
    (uuidGen : Nat → Except String String)
    (st : EngineStore) (now : Int) : EngineStore × ScreenOutput :=
  (st, screenConjunctionsRun userPos dist rawProp uuidGen st.userSats st.debrisCache now)

/-- User-orbit propagator userSatEciAt (conjunction.ts lines 12-36):
analytic Keplerian propagation with clamped eccentricity, single-correction
Kepler solve, and rotation only by inclination. -/
noncomputable def userSatEciAt (s : Satellite) (tSinceEpochSec : ℝ) : ℝ × ℝ × ℝ :=
  let a := s.semiMajorAxisKm
  let e := max 0 (min 0.1 s.eccentricity)
  let i := s.inclinationDeg * Real.pi / 180
  let n := Real.sqrt (MU_EARTH / a ^ 3)
  let M := n * tSinceEpochSec
  let E := M + e * Real.sin M
  let cosE := Real.cos E
  let sinE := Real.sin E
  let x_op := a * (cosE - e)
  let y_op := a * Real.sqrt (1 - e * e) * sinE
  (x_op, y_op * Real.cos i, y_op * Real.sin i)

/-- Euclidean distance distKm (conjunction.ts lines 51-56). -/
noncomputable def distKm (a b : ℝ × ℝ × ℝ) : ℝ :=
  let dx := a.1 - b.1
  let dy := a.2.1 - b.2.1
  let dz := a.2.2 - b.2.2
  Real.sqrt (dx * dx + dy * dy + dz * dz)

/-- Whitespace characters trimmed by the JS trim calls in the feeds this
system ingests. -/
def jsWs (c : Char) : Bool :=
  c == ' ' || c == '\t' || c == '\r' || c == '\n'

/-- Trim leading and trailing whitespace from a character list. -/
def trimChars (l : List Char) : List Char :=
  ((l.dropWhile jsWs).reverse.dropWhile jsWs).reverse

/-- JS String.prototype.trim. -/
def jsTrim (s : String) : String := String.mk (trimChars s.data)

/-- Split a character list at every CR?LF, the separator regular expression
of tle.ts line 23. -/
def splitNl : List Char → List (List Char)
  | [] => [[]]
  | '\r' :: '\n' :: rest => [] :: splitNl rest
  | '\n' :: rest => [] :: splitNl rest
  | c :: rest =>
    match splitNl rest with
    | [] => [[c]]
    | l :: ls => (c :: l) :: ls

/-- Boolean prefix test on character lists. -/
def charsStart : List Char → List Char → Bool
  | [], _ => true
  | _ :: _, [] => false
  | p :: ps, c :: cs => p == c && charsStart ps cs

/-- JS String.prototype.startsWith: does `s` start with `pre`. -/
def jsStartsWith (s pre : String) : Bool := charsStart pre.data s.data

/-- Line splitting of tle.ts line 23: split on CR?LF and drop empty lines
(the filter(Boolean) of the source). -/
def tleLines (txt : String) : List String :=
  ((splitNl txt.data).filter (fun l => !l.isEmpty)).map (fun l => String.mk l)

/-- Parsing loop of tle.ts lines 27-35: consume three lines per group while
at least three lines remain and fewer than `limit` records were accepted;
keep a group only when line1 starts with "1 " and line2 starts with "2 ";
a malformed group is consumed and skipped. -/
def parseTleGroups (limit : Nat) : List String → List TleRecord → List TleRecord
  | a :: b :: c :: rest, out =>
    if out.length < limit then
      let name := jsTrim a
      let line1 := jsTrim b
      let line2 := jsTrim c
      if jsStartsWith line1 ("1 ") && jsStartsWith line2 ("2 ") then
        parseTleGroups limit rest (out ++ [{ name := name, line1 := line1, line2 := line2 }])
      else
        parseTleGroups limit rest out
    else out
  | _, out => out

/-- loadTLEs of tle.ts lines 9-43, given the already-fetched response text
(the network fetch is external): parse up to `limit` groups and fail when
nothing valid was parsed (tle.ts lines 37-39). -/
def loadTLEs (txt : String) (limit : Nat) : Except String (List TleRecord) :=
  let out := parseTleGroups limit (tleLines txt) []
  if out.isEmpty then Except.error ("No valid TLE data parsed from response")
  else Except.ok out

/-
Concrete fixtures used by counterexamples and by witnesses of the theorems
below. The geometry callbacks are chosen instantiations of the external /
real-valued parameters of the parametric screening loop.
-/

/-- A concrete user satellite (numeric fields are never inspected by the
parametric screening loop). -/
noncomputable def satA : Satellite :=
  { name := "SAT-A", semiMajorAxisKm := 7000, inclinationDeg := 0, eccentricity := 0 }

/-- A concrete circular-orbit satellite for the propagator claims. -/
noncomputable def satC : Satellite :=
  { name := "SAT-C", semiMajorAxisKm := 7000, inclinationDeg := 90, eccentricity := 0 }

/-- A concrete debris element. -/
def tleA : TleRecord := { name := "DEB-1", line1 := "1 00001U", line2 := "2 00001" }

/-- A concrete debris element whose propagation always throws in the
fixtures below. -/
def tleBad : TleRecord := { name := "DEB-BAD", line1 := "1 00002U", line2 := "2 00002" }

/-- Trivial position type instantiation for witnesses. -/
def posF : Satellite → ℚ → Unit := fun _ _ => ()

/-- Distance instantiation for witnesses: everything is at distance 0. -/
def distF : Unit → Unit → ℚ := fun _ _ => 0

/-- Propagator instantiation that always succeeds. -/
def propOkF : TleRecord → Int → Except String (Option Unit) :=
  fun _ _ => Except.ok (some ())

/-- Propagator instantiation that throws for tleBad and succeeds
otherwise. -/
def propSkipF : TleRecord → Int → Except String (Option Unit) :=
  fun tle _ => if tle.name = "DEB-BAD" then Except.error ("sgp4 failure") else Except.ok (some ())

/-- Propagator instantiation with a mixed failure pattern: it throws for
tleBad at instant 0 only and succeeds everywhere else. -/
def propMixF : TleRecord → Int → Except String (Option Unit) :=
  fun tle t =>
    if tle.name = "DEB-BAD" ∧ t = 0 then Except.error ("sgp4 failure")
    else Except.ok (some ())

/-- A uuid supply that always returns the given string. -/
def genConst (s : String) : Nat → Except String String := fun _ => Except.ok s

/-- A uuid supply modelling crypto.randomUUID throwing (for example in a
non-secure context). -/
def genFail : Nat → Except String String := fun _ => Except.error ("crypto unavailable")

/-- Concrete valid TLE feed text for the ingestion witness: one valid group
followed by one malformed group. -/
def txtW : String := "ISS (ZARYA)\n1 25544U 98067A\n2 25544 51.6\nJUNKNAME\nBADLINE1\nBADLINE2\n"

/-- The single record parsed out of txtW. -/
def tleIss : TleRecord := { name := "ISS (ZARYA)", line1 := "1 25544U 98067A", line2 := "2 25544 51.6" }

/-- C1 (counterexample): in the 500 km demo configuration a minimum
distance of 10 km is classified HIGH, not MEDIUM as the claimed shared
5/25 boundary set would require. -/
theorem c1_counterexample :
    conjScreenDecision ((10 : ℚ) : WithTop ℚ) = some Severity.HIGH ∧
    conjScreenDecision ((10 : ℚ) : WithTop ℚ) ≠ some Severity.MEDIUM := by
  decide

/-- C1 (amended): the two threshold configurations use different severity
boundaries. The 100 km operational screener classifies distances below 5 km
HIGH, from 5 to 25 km MEDIUM and from 25 km to its threshold LOW, while the
500 km demo screener uses the scaled boundaries 50 km and 200 km. -/
theorem c1_amended (d : ℚ) :
    (d < 5 → tleScreenDecision ((d : ℚ) : WithTop ℚ) = some Severity.HIGH) ∧
    (5 ≤ d → d < 25 → tleScreenDecision ((d : ℚ) : WithTop ℚ) = some Severity.MEDIUM) ∧
    (25 ≤ d → d < 100 → tleScreenDecision ((d : ℚ) : WithTop ℚ) = some Severity.LOW) ∧
    (100 ≤ d → tleScreenDecision ((d : ℚ) : WithTop ℚ) = none) ∧
    (d < 50 → conjScreenDecision ((d : ℚ) : WithTop ℚ) = some Severity.HIGH) ∧
    (50 ≤ d → d < 200 → conjScreenDecision ((d : ℚ) : WithTop ℚ) = some Severity.MEDIUM) ∧
    (200 ≤ d → d < 500 → conjScreenDecision ((d : ℚ) : WithTop ℚ) = some Severity.LOW) ∧
    (500 ≤ d → conjScreenDecision ((d : ℚ) : WithTop ℚ) = none) := by
  refine ⟨fun h => ?_, fun h h2 => ?_, fun h h2 => ?_, fun h => ?_,
    fun h => ?_, fun h h2 => ?_, fun h h2 => ?_, fun h => ?_⟩ <;>
    simp only [tleScreenDecision, tleClassifySeverity, conjScreenDecision,
      classifySeverity, TLE_THRESHOLD_KM, THRESHOLD_KM, WithTop.coe_lt_coe] <;>
    split_ifs <;> first | rfl | (exfalso; linarith)

/-- C1 (amended, witness): at 10 km the operational screener says MEDIUM
while the demo screener says HIGH. -/
theorem c1_amended_witness :
    tleScreenDecision ((10 : ℚ) : WithTop ℚ) = some Severity.MEDIUM ∧
    conjScreenDecision ((10 : ℚ) : WithTop ℚ) = some Severity.HIGH :=
  ⟨(c1_amended 10).2.1 (by norm_num) (by norm_num),
   (c1_amended 10).2.2.2.2.1 (by norm_num)⟩

/-- C2 (confirmed): in the operational 100 km screener, 4.999 km classifies
HIGH, 5.000 km and 24.999 km classify MEDIUM, 25.000 km classifies LOW, and
any distance at or above the configured threshold produces no threat (the
threshold comparison is strict). -/
theorem c2_severity_boundaries :
    tleScreenDecision ((4.999 : ℚ) : WithTop ℚ) = some Severity.HIGH ∧
    tleScreenDecision ((5 : ℚ) : WithTop ℚ) = some Severity.MEDIUM ∧
    tleScreenDecision ((24.999 : ℚ) : WithTop ℚ) = some Severity.MEDIUM ∧
    tleScreenDecision ((25 : ℚ) : WithTop ℚ) = some Severity.LOW ∧
    ∀ d : ℚ, TLE_THRESHOLD_KM ≤ d → tleScreenDecision ((d : ℚ) : WithTop ℚ) = none := by
  have hthr : TLE_THRESHOLD_KM = 100 := rfl
  refine ⟨?_, ?_, ?_, ?_, fun d hd => ?_⟩
  all_goals try rw [hthr] at hd
  all_goals
    simp only [tleScreenDecision, tleClassifySeverity, TLE_THRESHOLD_KM,
      WithTop.coe_lt_coe]
  all_goals split_ifs <;> first | rfl | (exfalso; linarith)

/-- C2 (witness): the threshold case applied at exactly 100 km. -/
theorem c2_severity_boundaries_witness :
    tleScreenDecision ((100 : ℚ) : WithTop ℚ) = none :=
  c2_severity_boundaries.2.2.2.2 100 (by norm_num [TLE_THRESHOLD_KM])

/-- Helper: the per-satellite loop is insensitive to which uuid supply is
used, as long as both supplies succeed: the per-orbit records coincide and
the threats coincide after erasing the generated ids. -/
theorem satLoop_uuid_invariance {Pos : Type} (userPos : Satellite → ℚ → Pos)
    (dist : Pos → Pos → ℚ) (rawProp : TleRecord → Int → Except String (Option Pos))
    (g1 g2 : Nat → Except String String) (debris : List TleRecord) (now : Int)
    (h1 : ∀ n, ∃ s, g1 n = Except.ok s) (h2 : ∀ n, ∃ s, g2 n = Except.ok s)
    (sats : List Satellite) :
    ∀ ctr : Nat, ∃ rs ts1 ts2,
      satLoop userPos dist rawProp g1 debris now ctr sats = Except.ok (rs, ts1) ∧
      satLoop userPos dist rawProp g2 debris now ctr sats = Except.ok (rs, ts2) ∧
      ts1.map Threat.eraseId = ts2.map Threat.eraseId := by
  induction sats with
  | nil => exact fun ctr => ⟨[], [], [], rfl, rfl, rfl⟩
  | cons u rest ih =>
    intro ctr
    cases hdec : conjScreenDecision (bestFor userPos dist rawProp debris now u).d with
    | none =>
      obtain ⟨rs, ts1, ts2, e1, e2, he⟩ := ih ctr
      refine ⟨{ satelliteName := u.name,
                minDistanceKm := (bestFor userPos dist rawProp debris now u).d,
                timeOfClosestApproach := (bestFor userPos dist rawProp debris now u).when } :: rs,
              ts1, ts2, ?_, ?_, he⟩
      · simp only [satLoop, hdec]
        rw [e1]
        rfl
      · simp only [satLoop, hdec]
        rw [e2]
        rfl
    | some sev =>
      obtain ⟨s1, hs1⟩ := h1 ctr
      obtain ⟨s2, hs2⟩ := h2 ctr
      obtain ⟨rs, ts1, ts2, e1, e2, he⟩ := ih (ctr + 1)
      refine ⟨{ satelliteName := u.name,
                minDistanceKm := (bestFor userPos dist rawProp debris now u).d,
                timeOfClosestApproach := (bestFor userPos dist rawProp debris now u).when } :: rs,
        mkThreat s1 u (bestFor userPos dist rawProp debris now u) sev :: ts1,
        mkThreat s2 u (bestFor userPos dist rawProp debris now u) sev :: ts2, ?_, ?_, ?_⟩
      · simp only [satLoop, hdec, hs1]
        rw [e1]
        rfl
      · simp only [satLoop, hdec, hs2]
        rw [e2]
        rfl
      · simp only [List.map_cons, he]
        rfl

set_option maxRecDepth 100000 in
/-- C3 (counterexample): two invocations on identical user and debris
lists and the same now, differing only in the ambient randomness of
crypto.randomUUID, produce different emitted records (the threat ids
differ). -/
theorem c3_counterexample :
    screenConjunctionsRun posF distF propOkF (genConst ("a")) [satA] [tleA] 0 ≠
      screenConjunctionsRun posF distF propOkF (genConst ("b")) [satA] [tleA] 0 := by
  decide

/-- C3 (amended): screening is deterministic up to the randomly generated
threat ids: for identical inputs and the same now, any two invocations
whose uuid supplies succeed produce identical per-orbit minimum distances
and times of closest approach, and threat lists that are identical once the
id field is erased. -/
theorem c3_amended {Pos : Type} (userPos : Satellite → ℚ → Pos)
    (dist : Pos → Pos → ℚ) (rawProp : TleRecord → Int → Except String (Option Pos))
    (g1 g2 : Nat → Except String String) (sats : List Satellite)
    (debris : List TleRecord) (now : Int)
    (h1 : ∀ n, ∃ s, g1 n = Except.ok s) (h2 : ∀ n, ∃ s, g2 n = Except.ok s) :
    (screenConjunctionsRun userPos dist rawProp g1 sats debris now).results =
      (screenConjunctionsRun userPos dist rawProp g2 sats debris now).results ∧
    (screenConjunctionsRun userPos dist rawProp g1 sats debris now).threats.map Threat.eraseId =
      (screenConjunctionsRun userPos dist rawProp g2 sats debris now).threats.map Threat.eraseId := by
  obtain ⟨rs, ts1, ts2, e1, e2, he⟩ :=
    satLoop_uuid_invariance userPos dist rawProp g1 g2 debris now h1 h2 sats 0
  unfold screenConjunctionsRun
  by_cases hs : sats.isEmpty
  · rw [if_pos hs, if_pos hs]
    exact ⟨rfl, rfl⟩
  rw [if_neg hs, if_neg hs]
  by_cases hd : debris.isEmpty
  · rw [if_pos hd, if_pos hd]
    exact ⟨rfl, rfl⟩
  rw [if_neg hd, if_neg hd, e1, e2]
  exact ⟨rfl, he⟩

/-- C3 (amended, witness): the invariance applied at the concrete run that
emits one threat under two different successful uuid supplies. -/
theorem c3_amended_witness :
    (screenConjunctionsRun posF distF propOkF (genConst ("a")) [satA] [tleA] 0).results =
      (screenConjunctionsRun posF distF propOkF (genConst ("b")) [satA] [tleA] 0).results ∧
    (screenConjunctionsRun posF distF propOkF (genConst ("a")) [satA] [tleA] 0).threats.map Threat.eraseId =
      (screenConjunctionsRun posF distF propOkF (genConst ("b")) [satA] [tleA] 0).threats.map Threat.eraseId :=
  c3_amended posF distF propOkF (genConst ("a")) (genConst ("b")) [satA] [tleA] 0
    (fun _ => ⟨"a", rfl⟩) (fun _ => ⟨"b", rfl⟩)

/-- C4 (counterexample): screening one user satellite against an empty
debris list emits zero per-orbit records, not one per user orbit. -/
theorem c4_counterexample :
    (screenConjunctionsRun posF distF propOkF (genConst ("a")) [satA] [] 0).results.length ≠
      [satA].length := by
  decide

/-- C4 (amended): screening with an empty debris list is skipped entirely:
it produces no per-orbit record and no threat, for any user list. -/
theorem c4_amended {Pos : Type} (userPos : Satellite → ℚ → Pos) (dist : Pos → Pos → ℚ)
    (rawProp : TleRecord → Int → Except String (Option Pos))
    (uuidGen : Nat → Except String String) (sats : List Satellite) (now : Int) :
    screenConjunctionsRun userPos dist rawProp uuidGen sats [] now =
      { results := [], threats := [] } := by
  unfold screenConjunctionsRun
  cases sats <;> simp

/-- C8 (confirmed): the screening engine is a total function of its inputs,
and whenever its body raises (here: the uuid supply throwing, the one
modelled exception source inside the try block), the exception is caught and
the empty output is returned. -/
theorem c8_exception_caught {Pos : Type} (userPos : Satellite → ℚ → Pos)
    (dist : Pos → Pos → ℚ) (rawProp : TleRecord → Int → Except String (Option Pos))
    (uuidGen : Nat → Except String String) (sats : List Satellite)
    (debris : List TleRecord) (now : Int) (msg : String)
    (h : satLoop userPos dist rawProp uuidGen debris now 0 sats = Except.error msg) :
    screenConjunctionsRun userPos dist rawProp uuidGen sats debris now =
      { results := [], threats := [] } := by
  unfold screenConjunctionsRun
  by_cases hs : sats.isEmpty <;> simp [hs]
  by_cases hd : debris.isEmpty <;> simp [hd, h]

set_option maxRecDepth 100000 in
/-- C8 (witness): with a throwing uuid supply and a run that does reach a
threat emission, the engine returns the empty output instead of
propagating. -/
theorem c8_exception_caught_witness :
    screenConjunctionsRun posF distF propOkF genFail [satA] [tleA] 0 =
      { results := [], threats := [] } :=
  c8_exception_caught posF distF propOkF genFail [satA] [tleA] 0
    ("crypto unavailable") rfl

/-- C10 (confirmed): the store-passing translation of screenConjunctions
returns the caller's input store unchanged: neither the user-satellite
array nor the debris array is mutated by a screening invocation. -/
theorem c10_no_input_mutation {Pos : Type} (userPos : Satellite → ℚ → Pos)
    (dist : Pos → Pos → ℚ) (rawProp : TleRecord → Int → Except String (Option Pos))
    (uuidGen : Nat → Except String String) (st : EngineStore) (now : Int) :
    (screenConjunctionsSt userPos dist rawProp uuidGen st now).1 = st ∧
    (screenConjunctionsSt userPos dist rawProp uuidGen st now).1.userSats = st.userSats ∧
    (screenConjunctionsSt userPos dist rawProp uuidGen st now).1.debrisCache = st.debrisCache :=
  ⟨rfl, rfl, rfl⟩

/-- Helper: the inner debris loop at one instant leaves the accumulator
step for an element whose propagation failed unchanged, so the element can
be deleted from the list without affecting the fold at that instant. -/
theorem debrisStep_skip {Pos : Type} (dist : Pos → Pos → ℚ)
    (rawProp : TleRecord → Int → Except String (Option Pos)) (e : TleRecord)
    (l1 l2 : List TleRecord) (t : Int) (pU : Pos)
    (h : tleEciAt rawProp e t = none) (b : Best) :
    debrisStep dist rawProp pU t (l1 ++ e :: l2) b =
      debrisStep dist rawProp pU t (l1 ++ l2) b := by
  unfold debrisStep
  rw [List.foldl_append, List.foldl_append, List.foldl_cons]
  simp only [h]

/-- Helper: the per-instant loop body likewise ignores an element whose
propagation failed at that instant. -/
theorem timeStep_skip {Pos : Type} (userPos : Satellite → ℚ → Pos)
    (dist : Pos → Pos → ℚ) (rawProp : TleRecord → Int → Except String (Option Pos))
    (e : TleRecord) (l1 l2 : List TleRecord) (now : Int) (u : Satellite)
    (t : Int) (h : tleEciAt rawProp e t = none) (b : Best) :
    timeStep userPos dist rawProp (l1 ++ e :: l2) now u b t =
      timeStep userPos dist rawProp (l1 ++ l2) now u b t := by
  unfold timeStep
  exact debrisStep_skip dist rawProp e l1 l2 t _ h b

/-- Helper: one inner-loop step is the singleton debris fold (unfolding of
the foldl over a cons cell). -/
theorem debrisStep_cons {Pos : Type} (dist : Pos → Pos → ℚ)
    (rawProp : TleRecord → Int → Except String (Option Pos)) (pU : Pos) (t : Int)
    (tle : TleRecord) (ds : List TleRecord) (b : Best) :
    debrisStep dist rawProp pU t (tle :: ds) b =
      debrisStep dist rawProp pU t ds (debrisStep dist rawProp pU t [tle] b) := rfl

/-- Helper: the inner debris fold over an appended list processes the left
part first. -/
theorem debrisStep_append {Pos : Type} (dist : Pos → Pos → ℚ)
    (rawProp : TleRecord → Int → Except String (Option Pos)) (pU : Pos) (t : Int)
    (l1 l2 : List TleRecord) (b : Best) :
    debrisStep dist rawProp pU t (l1 ++ l2) b =
      debrisStep dist rawProp pU t l2 (debrisStep dist rawProp pU t l1 b) := by
  unfold debrisStep
  exact List.foldl_append _ _ _ _

/-- Helper: a single debris step never increases the tracked minimum. -/
theorem debrisStep_one_d_le {Pos : Type} (dist : Pos → Pos → ℚ)
    (rawProp : TleRecord → Int → Except String (Option Pos)) (pU : Pos) (t : Int)
    (tle : TleRecord) (b : Best) :
    (debrisStep dist rawProp pU t [tle] b).d ≤ b.d := by
  unfold debrisStep
  simp only [List.foldl_cons, List.foldl_nil]
  cases h : tleEciAt rawProp tle t with
  | none => simp [h]
  | some p =>
    simp only [h]
    by_cases hlt : ((dist pU p : ℚ) : WithTop ℚ) < b.d
    · rw [if_pos hlt]
      exact le_of_lt hlt
    · rw [if_neg hlt]

/-- Helper: the inner debris fold never increases the tracked minimum. -/
theorem debrisStep_d_le {Pos : Type} (dist : Pos → Pos → ℚ)
    (rawProp : TleRecord → Int → Except String (Option Pos)) (pU : Pos) (t : Int)
    (ds : List TleRecord) : ∀ b : Best, (debrisStep dist rawProp pU t ds b).d ≤ b.d := by
  induction ds with
  | nil => exact fun b => le_refl b.d
  | cons tle ds ih =>
    intro b
    rw [debrisStep_cons]
    exact le_trans (ih _) (debrisStep_one_d_le dist rawProp pU t tle b)

/-- Helper: when an element propagates successfully at an instant, the
inner fold's result at that instant is bounded by that element's candidate
distance — the successful element really enters the minimum. -/
theorem debrisStep_contributes {Pos : Type} (dist : Pos → Pos → ℚ)
    (rawProp : TleRecord → Int → Except String (Option Pos)) (pU : Pos) (t : Int)
    (e : TleRecord) (l1 l2 : List TleRecord) (p : Pos)
    (h : tleEciAt rawProp e t = some p) (b : Best) :
    (debrisStep dist rawProp pU t (l1 ++ e :: l2) b).d ≤ ((dist pU p : ℚ) : WithTop ℚ) := by
  have hone : ∀ acc : Best,
      (debrisStep dist rawProp pU t [e] acc).d ≤ ((dist pU p : ℚ) : WithTop ℚ) := by
    intro acc
    unfold debrisStep
    simp only [List.foldl_cons, List.foldl_nil, h]
    by_cases hlt : ((dist pU p : ℚ) : WithTop ℚ) < acc.d
    · rw [if_pos hlt]
    · rw [if_neg hlt]
      exact le_of_not_lt hlt
  rw [debrisStep_append, debrisStep_cons]
  exact le_trans (debrisStep_d_le dist rawProp pU t l2 _) (hone _)

/-- Helper: one time-loop step never increases the tracked minimum. -/
theorem timeStep_d_le {Pos : Type} (userPos : Satellite → ℚ → Pos)
    (dist : Pos → Pos → ℚ) (rawProp : TleRecord → Int → Except String (Option Pos))
    (debris : List TleRecord) (now : Int) (u : Satellite) (b : Best) (t : Int) :
    (timeStep userPos dist rawProp debris now u b t).d ≤ b.d := by
  unfold timeStep
  exact debrisStep_d_le dist rawProp _ t debris b

/-- Helper: the folded time loop never increases the tracked minimum. -/
theorem foldl_timeStep_d_le {Pos : Type} (userPos : Satellite → ℚ → Pos)
    (dist : Pos → Pos → ℚ) (rawProp : TleRecord → Int → Except String (Option Pos))
    (debris : List TleRecord) (now : Int) (u : Satellite) (ts : List Int) :
    ∀ b : Best, (List.foldl (timeStep userPos dist rawProp debris now u) b ts).d ≤ b.d := by
  induction ts with
  | nil => exact fun b => le_refl b.d
  | cons t ts ih =>
    intro b
    rw [List.foldl_cons]
    exact le_trans (ih _) (timeStep_d_le userPos dist rawProp debris now u b t)

/-- Helper: a successful propagation of an element at any sampled instant
bounds the whole pass's minimum, whatever happens to that element at the
other instants. -/
theorem bestFor_le_candidate {Pos : Type} (userPos : Satellite → ℚ → Pos)
    (dist : Pos → Pos → ℚ) (rawProp : TleRecord → Int → Except String (Option Pos))
    (e : TleRecord) (l1 l2 : List TleRecord) (now : Int) (u : Satellite)
    (t1 : Int) (p : Pos) (hmem : t1 ∈ sampleTimes now)
    (hsucc : tleEciAt rawProp e t1 = some p) :
    (bestFor userPos dist rawProp (l1 ++ e :: l2) now u).d ≤
      ((dist (userPos u (((t1 - now : Int) : ℚ) / 1000)) p : ℚ) : WithTop ℚ) := by
  unfold bestFor
  have key : ∀ ts : List Int, t1 ∈ ts → ∀ b : Best,
      (List.foldl (timeStep userPos dist rawProp (l1 ++ e :: l2) now u) b ts).d ≤
        ((dist (userPos u (((t1 - now : Int) : ℚ) / 1000)) p : ℚ) : WithTop ℚ) := by
    intro ts
    induction ts with
    | nil => exact fun h => absurd h (List.not_mem_nil t1)
    | cons t ts ih =>
      intro hm b
      rcases List.mem_cons.mp hm with rfl | hm2
      · rw [List.foldl_cons]
        refine le_trans
          (foldl_timeStep_d_le userPos dist rawProp (l1 ++ e :: l2) now u ts _) ?_
        unfold timeStep
        exact debrisStep_contributes dist rawProp _ t1 e l1 l2 p hsucc b
      · rw [List.foldl_cons]
        exact ih hm2 _
  exact key (sampleTimes now) hmem _

/-- C5 (confirmed): a debris element whose propagation fails at a sampled
instant is skipped for that instant only. First, at any single instant
where the element fails, the inner loop behaves as if the element were
absent while all other elements still contribute (no hypothesis about
other instants). Second, the same element still contributes at every
sampled instant where it propagates successfully: the pass's minimum is
bounded by its candidate distance there, whatever its failure pattern
elsewhere — so a failure never drops the element for the rest of the pass.
Third, an element failing at every sampled instant contributes nothing:
the pass completes with the same closest approach as without it, and no
error is raised (the loop is total). -/
theorem c5_propagation_failure_skip {Pos : Type} (userPos : Satellite → ℚ → Pos)
    (dist : Pos → Pos → ℚ) (rawProp : TleRecord → Int → Except String (Option Pos))
    (e : TleRecord) (l1 l2 : List TleRecord) (now : Int) (u : Satellite) :
    (∀ (t0 : Int) (pU : Pos) (b : Best), tleEciAt rawProp e t0 = none →
      debrisStep dist rawProp pU t0 (l1 ++ e :: l2) b =
        debrisStep dist rawProp pU t0 (l1 ++ l2) b) ∧
    (∀ (t1 : Int) (p : Pos), t1 ∈ sampleTimes now → tleEciAt rawProp e t1 = some p →
      (bestFor userPos dist rawProp (l1 ++ e :: l2) now u).d ≤
        ((dist (userPos u (((t1 - now : Int) : ℚ) / 1000)) p : ℚ) : WithTop ℚ)) ∧
    ((∀ t ∈ sampleTimes now, tleEciAt rawProp e t = none) →
      bestFor userPos dist rawProp (l1 ++ e :: l2) now u =
        bestFor userPos dist rawProp (l1 ++ l2) now u) := by
  refine ⟨fun t0 pU b h0 => debrisStep_skip dist rawProp e l1 l2 t0 pU h0 b,
    fun t1 p hmem hsucc =>
      bestFor_le_candidate userPos dist rawProp e l1 l2 now u t1 p hmem hsucc,
    fun hall => ?_⟩
  unfold bestFor
  have key : ∀ (ts : List Int), (∀ t ∈ ts, tleEciAt rawProp e t = none) → ∀ bb : Best,
      List.foldl (timeStep userPos dist rawProp (l1 ++ e :: l2) now u) bb ts =
      List.foldl (timeStep userPos dist rawProp (l1 ++ l2) now u) bb ts := by
    intro ts
    induction ts with
    | nil => exact fun _ bb => rfl
    | cons t ts ih =>
      intro h bb
      simp only [List.foldl_cons]
      rw [timeStep_skip userPos dist rawProp e l1 l2 now u t
        (h t (List.mem_cons_self t ts)) bb]
      exact ih (fun t2 ht2 => h t2 (List.mem_cons_of_mem t ht2)) _
  exact key (sampleTimes now) hall _

/-- C5 (witness): the three parts exercised concretely. The mixed-pattern
propagator propMixF throws for tleBad at instant 0 and succeeds at the
other 24 sampled instants: part one applies at the failing instant 0, part
two applies at the succeeding instant 300000 where tleBad's candidate
(distance 0) bounds the pass's minimum, and part three applies to the
always-throwing propagator propSkipF. -/
theorem c5_propagation_failure_skip_witness :
    debrisStep distF propMixF () 0 ([tleA] ++ tleBad :: []) { d := ⊤, when := 0 } =
      debrisStep distF propMixF () 0 ([tleA] ++ []) { d := ⊤, when := 0 } ∧
    (bestFor posF distF propMixF ([tleA] ++ tleBad :: []) 0 satA).d ≤
      (((0 : ℚ) : ℚ) : WithTop ℚ) ∧
    bestFor posF distF propSkipF ([tleA] ++ tleBad :: []) 0 satA =
      bestFor posF distF propSkipF ([tleA] ++ []) 0 satA :=
  ⟨(c5_propagation_failure_skip posF distF propMixF tleBad [tleA] [] 0 satA).1
      0 () { d := ⊤, when := 0 } rfl,
   (c5_propagation_failure_skip posF distF propMixF tleBad [tleA] [] 0 satA).2.1
      300000 () (by decide) rfl,
   (c5_propagation_failure_skip posF distF propSkipF tleBad [tleA] [] 0 satA).2.2
      (fun _ _ => rfl)⟩

/-- Helper: the TLE parse loop only accepts records whose trimmed lines
carry the two marker prefixes, and never grows its output beyond the
limit. -/
theorem parseTleGroups_invariant (limit : Nat) :
    ∀ (n : Nat) (ls : List String) (acc : List TleRecord), ls.length ≤ n →
      (∀ r ∈ acc, jsStartsWith r.line1 ("1 ") = true ∧ jsStartsWith r.line2 ("2 ") = true) →
      acc.length ≤ limit →
      (∀ r ∈ parseTleGroups limit ls acc,
        jsStartsWith r.line1 ("1 ") = true ∧ jsStartsWith r.line2 ("2 ") = true) ∧
      (parseTleGroups limit ls acc).length ≤ limit := by
  intro n
  induction n with
  | zero =>
    intro ls acc hlen hacc hlim
    cases ls with
    | nil => exact ⟨by simpa [parseTleGroups] using hacc, by simpa [parseTleGroups] using hlim⟩
    | cons a rest => simp at hlen
  | succ n ih =>
    intro ls acc hlen hacc hlim
    match ls with
    | [] => exact ⟨by simpa [parseTleGroups] using hacc, by simpa [parseTleGroups] using hlim⟩
    | [a] => exact ⟨by simpa [parseTleGroups] using hacc, by simpa [parseTleGroups] using hlim⟩
    | [a, b] => exact ⟨by simpa [parseTleGroups] using hacc, by simpa [parseTleGroups] using hlim⟩
    | a :: b :: c :: rest =>
      simp only [parseTleGroups]
      by_cases hlt : acc.length < limit
      · rw [if_pos hlt]
        by_cases hok : (jsStartsWith (jsTrim b) ("1 ") && jsStartsWith (jsTrim c) ("2 ")) = true
        · rw [if_pos hok]
          have hparts := Bool.and_eq_true_iff.mp hok
          refine ih rest _ ?_ ?_ ?_
          · have : rest.length + 3 ≤ n + 1 := by simpa using hlen
            omega
          · intro r hr
            rcases List.mem_append.mp hr with hr1 | hr2
            · exact hacc r hr1
            · rcases List.mem_singleton.mp hr2 with rfl
              exact ⟨hparts.1, hparts.2⟩
          · simpa using hlt
        · rw [if_neg hok]
          refine ih rest acc ?_ hacc hlim
          have : rest.length + 3 ≤ n + 1 := by simpa using hlen
          omega
      · rw [if_neg hlt]
        exact ⟨hacc, hlim⟩

/-- C9 (confirmed): whenever loadTLEs succeeds on a feed text, every
returned record has line1 starting with "1 " and line2 starting with "2 ",
and at most `limit` records are returned; malformed three-line groups are
consumed and skipped by the total parse loop rather than crashing it. -/
theorem c9_tle_ingestion (txt : String) (limit : Nat) (out : List TleRecord)
    (h : loadTLEs txt limit = Except.ok out) :
    (∀ r ∈ out, jsStartsWith r.line1 ("1 ") = true ∧ jsStartsWith r.line2 ("2 ") = true) ∧
    out.length ≤ limit := by
  simp only [loadTLEs] at h
  by_cases he : (parseTleGroups limit (tleLines txt) []).isEmpty
  · rw [if_pos he] at h
    exact absurd h (by simp)
  · rw [if_neg he] at h
    have hout : parseTleGroups limit (tleLines txt) [] = out := by
      injection h
    rw [← hout]
    exact parseTleGroups_invariant limit (tleLines txt).length (tleLines txt) []
      le_rfl (by simp) (Nat.zero_le _)

/-- C9 (witness): the ingestion theorem applied to a concrete feed holding
one valid group and one malformed group. -/
theorem c9_tle_ingestion_witness :
    ([tleIss] : List TleRecord).length ≤ 8 ∧ jsStartsWith tleIss.line1 ("1 ") = true :=
  ⟨(c9_tle_ingestion txtW 8 [tleIss] rfl).2,
   ((c9_tle_ingestion txtW 8 [tleIss] rfl).1 tleIss (by simp)).1⟩

/-- C6 (confirmed): for a valid orbit with eccentricity 0 and any
inclination in [0, 180] degrees, the propagated position lies at distance
exactly the semi-major axis from the origin, at every elapsed time
(circular-orbit invariant; exact over the reals, hence within any
floating-point tolerance). -/
theorem c6_circular_orbit_radius (s : Satellite) (he : s.eccentricity = 0)
    (_hi1 : 0 ≤ s.inclinationDeg) (_hi2 : s.inclinationDeg ≤ 180)
    (ha : 6371 < s.semiMajorAxisKm) (t : ℝ) :
    distKm (userSatEciAt s t) (0, 0, 0) = s.semiMajorAxisKm := by
  have hapos : (0:ℝ) < s.semiMajorAxisKm := by linarith
  have hcl : max (0:ℝ) (min 0.1 s.eccentricity) = 0 := by
    rw [he]
    norm_num
  have h1 := Real.sin_sq_add_cos_sq
    (Real.sqrt (MU_EARTH / s.semiMajorAxisKm ^ 3) * t)
  have h2 := Real.sin_sq_add_cos_sq (s.inclinationDeg * Real.pi / 180)
  have key : ∀ x : ℝ, x = s.semiMajorAxisKm ^ 2 →
      Real.sqrt x = s.semiMajorAxisKm := fun x hx => by
    rw [hx, Real.sqrt_sq hapos.le]
  simp only [userSatEciAt, distKm, hcl, mul_zero, zero_mul, add_zero, sub_zero,
    sub_self, mul_one, Real.sqrt_one]
  apply key
  linear_combination (s.semiMajorAxisKm ^ 2) * h1 +
    (s.semiMajorAxisKm ^ 2 *
      Real.sin (Real.sqrt (MU_EARTH / s.semiMajorAxisKm ^ 3) * t) ^ 2) * h2

/-- C6 (witness): the circular-orbit invariant at a concrete polar circular
orbit and elapsed time 0. -/
theorem c6_circular_orbit_radius_witness :
    distKm (userSatEciAt satC 0) (0, 0, 0) = satC.semiMajorAxisKm :=
  c6_circular_orbit_radius satC rfl (by norm_num [satC]) (by norm_num [satC])
    (by norm_num [satC]) 0

/-- C7 (confirmed): for every satellite record with a physically valid
semi-major axis, the propagated position at elapsed time 0 equals the
position at one full orbital period 2π/n, n = sqrt(μ/a³) (periodicity;
exact over the reals, hence within any floating-point tolerance). -/
theorem c7_periodicity (s : Satellite) (ha : 6371 < s.semiMajorAxisKm) :
    userSatEciAt s 0 =
      userSatEciAt s (2 * Real.pi / Real.sqrt (MU_EARTH / s.semiMajorAxisKm ^ 3)) := by
  have hapos : (0:ℝ) < s.semiMajorAxisKm := by linarith
  have hmu : (0:ℝ) < MU_EARTH := by norm_num [MU_EARTH]
  have hn : 0 < Real.sqrt (MU_EARTH / s.semiMajorAxisKm ^ 3) :=
    Real.sqrt_pos.mpr (div_pos hmu (pow_pos hapos 3))
  have hM : Real.sqrt (MU_EARTH / s.semiMajorAxisKm ^ 3) *
      (2 * Real.pi / Real.sqrt (MU_EARTH / s.semiMajorAxisKm ^ 3)) = 2 * Real.pi := by
    field_simp
    ring
  simp only [userSatEciAt, mul_zero, hM, Real.sin_zero, Real.cos_zero,
    Real.sin_two_pi, Real.cos_two_pi, add_zero, zero_mul]

/-- C7 (witness): periodicity applied at the concrete circular orbit. -/
theorem c7_periodicity_witness :
    userSatEciAt satC 0 =
      userSatEciAt satC (2 * Real.pi / Real.sqrt (MU_EARTH / satC.semiMajorAxisKm ^ 3)) :=
  c7_periodicity satC (by norm_num [satC])
